import Mathlib

/-!
Shallow embedding of the r2cn-mentor-link backend (Rust) in Lean 4.

Sources embedded:
  * src/entity/src/task.rs        — the task entity record
  * src/api/src/email.rs          — EmailSender and the notification functions
  * src/api/src/confernece_router.rs — the conference-creation handler and
    the next_tuesday_8pm helper
  * src/api/src/model/huawei_meeting/mod.rs — Conferences and its conversion
    into a conference ActiveModel

Conventions: database/storage lookups are passed in as functions
(String → Option _), standing for the `Ok`-unwrapped result of the
storage call (a storage-layer `Err` panics in the Rust through `.unwrap()`
and is outside these models); `Option _` results model Rust `Option`;
an `Option` wrapper on a whole function result models a possible panic
(`none` = the Rust function panics via `.unwrap()` on `None` or on an
error). Chrono timestamps are `Int`/`Nat` parameters supplied at the
point where the Rust calls `now()`.
-/

namespace R2cnMentorLink

/-- Modelled from the spec: the `TaskStatus` enum lives in
`entity::sea_orm_active_enums`, which is not among the provided sources.
The spec names the lifecycle states assigned, failed and completed. -/
inductive TaskStatus where
  | assigned
  | failed
  | completed
  deriving DecidableEq, Repr

/-- The task entity from src/entity/src/task.rs (`Model`).  The fields
`github_issue_title`, `github_issue_link`, `owner` and `repo` are not in
the provided task.rs snapshot but are read by src/api/src/email.rs on
`task::Model`, so they belong to the repository's task entity and are
included here. -/
structure TaskModel where
  id : Int
  github_repo_id : Int
  github_issue_id : Int
  score : Int
  task_status : TaskStatus
  student_github_login : Option String
  mentor_github_login : String
  create_at : Int
  update_at : Int
  github_issue_title : String
  github_issue_link : String
  owner : String
  repo : String
  deriving DecidableEq, Repr

/-- Modelled from the spec: the student entity is repository code not under
the provided src/; email.rs reads `student.student_name` and
`student.email`, and looks the record up by GitHub login. -/
structure StudentModel where
  github_login : String
  student_name : String
  email : String
  deriving DecidableEq, Repr

/-- Modelled from the spec: `MentorStatus` from `service::storage::mentor_stg`
is not under the provided src/; email.rs compares against
`MentorStatus::Active`, so the model keeps `active` and one inactive state. -/
inductive MentorStatus where
  | active
  | inactive
  deriving DecidableEq, Repr

/-- Modelled from the spec: `MentorRes` from `service::storage::mentor_stg`
is not under the provided src/; email.rs reads `.status` and `.email` of the
converted mentor record. -/
structure MentorRes where
  github_login : String
  status : MentorStatus
  email : String
  deriving DecidableEq, Repr

/-- `util::project_link` from src/api/src/email.rs. -/
def project_link (task : TaskModel) : String :=
  "https://github.com/" ++ task.owner ++ "/" ++ task.repo

/-- A Tera rendering context, as the ordered list of `insert`ed
(key, value) pairs; numeric values are inserted via their decimal
rendering. -/
abbrev EmailContext := List (String × String)

/-- `EmailSender` from src/api/src/email.rs. -/
structure EmailSender where
  template_name : String
  subject : String
  context : EmailContext
  receiver : String
  cc_email : List String
  deriving DecidableEq, Repr

/-- `EmailSender::new`: flattens the `Vec<Option<String>>` of CC addresses
into the present ones. -/
def EmailSender.new (template_name subject : String) (context : EmailContext)
    (receiver : String) (cc_email : List (Option String)) : EmailSender :=
  { template_name := template_name
    subject := subject
    context := context
    receiver := receiver
    cc_email := cc_email.filterMap id }

/-- The CC address computed identically in `failed_email`, `assigned_email`
and `complete_email`: the mentor record for the task's mentor login,
converted and kept only when its status is Active. -/
def mentor_cc_email (get_mentor : String → Option MentorRes)
    (mentor_github_login : String) : Option String :=
  (get_mentor mentor_github_login).bind fun mentor =>
    if mentor.status = MentorStatus.active then some mentor.email else none

/-- Outcome of one notification function: it returned without building a
sender, it panicked on an `unwrap`, or it built exactly this sender and
called `send()` on it once. -/
inductive NotifyResult where
  | noEmail
  | panicked
  | sent (sender : EmailSender)
  deriving DecidableEq, Repr

/-- How many times the notification outcome invoked `EmailSender::send`. -/
def NotifyResult.send_count : NotifyResult → Nat
  | .sent _ => 1
  | _ => 0

/-- The sender a notification outcome passed to `send()`, when any. -/
def NotifyResult.sent_sender : NotifyResult → Option EmailSender
  | .sent s => some s
  | _ => none

/-- `EmailSender::failed_email` from src/api/src/email.rs: when the task has
a student login, look the student up, compute the mentor CC, and if the
student record is present build the task_failed sender and send once. -/
def failed_email (get_student : String → Option StudentModel)
    (get_mentor : String → Option MentorRes) (task : TaskModel) : NotifyResult :=
  match task.student_github_login with
  | none => .noEmail
  | some student_github_login =>
    let student := get_student student_github_login
    let cc_email := mentor_cc_email get_mentor task.mentor_github_login
    match student with
    | none => .noEmail
    | some student =>
      let email_context : EmailContext :=
        [("student_name", student.student_name),
         ("task_title", task.github_issue_title),
         ("task_link", task.github_issue_link),
         ("mentor_name", task.mentor_github_login),
         ("project_link", project_link task)]
      .sent (EmailSender.new "task_failed.mjml" "R2CN任务失败通知/R2CN Task Failure"
        email_context student.email [cc_email])

/-- `EmailSender::assigned_email` from src/api/src/email.rs: the student
lookup is double-unwrapped, so a missing student record panics. -/
def assigned_email (get_student : String → Option StudentModel)
    (get_mentor : String → Option MentorRes) (task : TaskModel) : NotifyResult :=
  match task.student_github_login with
  | none => .noEmail
  | some student_github_login =>
    match get_student student_github_login with
    | none => .panicked
    | some student =>
      let cc_email := mentor_cc_email get_mentor task.mentor_github_login
      let email_context : EmailContext :=
        [("student_name", student.student_name),
         ("task_title", task.github_issue_title),
         ("task_link", task.github_issue_link),
         ("mentor_name", task.mentor_github_login),
         ("project_link", project_link task)]
      .sent (EmailSender.new "task_assigned.mjml" "R2CN任务认领通知/R2CN Task Assigned"
        email_context student.email [cc_email])

/-- `EmailSender::complete_email` from src/api/src/email.rs: like
`failed_email` but with the points balance in the context and the
completed-points template. -/
def complete_email (get_student : String → Option StudentModel)
    (get_mentor : String → Option MentorRes) (task : TaskModel)
    (balance : Int) : NotifyResult :=
  match task.student_github_login with
  | none => .noEmail
  | some student_github_login =>
    let student := get_student student_github_login
    let cc_email := mentor_cc_email get_mentor task.mentor_github_login
    match student with
    | none => .noEmail
    | some student =>
      let email_context : EmailContext :=
        [("student_name", student.student_name),
         ("task_title", task.github_issue_title),
         ("task_link", task.github_issue_link),
         ("mentor_name", task.mentor_github_login),
         ("points_total", toString balance),
         ("project_link", project_link task)]
      .sent (EmailSender.new "task_completed_points.mjml" "R2CN任务完成通知/R2CN Task Successful"
        email_context student.email [cc_email])

/-- `cid_images_for_template` from src/api/src/email.rs: the inline images
embedded for a given template, always starting with the background. -/
def cid_images_for_template (template_name : String) : List (String × String) :=
  let imgs := [("templates/image/background.png", "background")]
  match template_name with
  | "task_assigned.mjml" => imgs ++ [("templates/image/task_assigned.png", "task_status")]
  | "task_failed.mjml" => imgs ++ [("templates/image/task_failed.png", "task_status")]
  | "task_completed_points.mjml" => imgs ++ [("templates/image/task_completed.png", "task_status")]
  | "monthly_points_summary.mjml" => imgs ++ [("templates/image/task_points.png", "task_status")]
  | _ => imgs

/-- The outside world as `EmailSender::send` sees it: the two rendering
paths (MJML via mrml, plain Tera), mailbox-address parsing, inline-image
attachment loading, message building, the two SMTP credential environment
variables, relay construction, and the one SMTP delivery attempt. -/
structure SendEnv where
  render_mjml_fn : String → EmailContext → Except String String
  render_tera_fn : String → EmailContext → Except String String
  parse_mailbox : String → Bool
  attach_ok : String → Bool
  build_ok : Bool
  zepto_ak : Option String
  zepto_sk : Option String
  relay_ok : Bool
  deliver : Except String Unit

/-- The rendering step of `EmailSender::send`: templates ending in `.mjml`
go through `render_mjml`, the rest through a plain Tera instance. -/
def EmailSender.render_result (self : EmailSender) (env : SendEnv) : Except String String :=
  if self.template_name.endsWith ".mjml" then
    env.render_mjml_fn self.template_name self.context
  else
    env.render_tera_fn self.template_name self.context

/-- Observable outcome of one `send()` call: error-level logs, warn-level
logs, and how many SMTP delivery attempts were made. -/
structure SendOutcome where
  error_logs : List String
  warn_logs : List String
  smtp_attempts : Nat
  deriving DecidableEq, Repr

/-- `EmailSender::send` from src/api/src/email.rs.  `none` is a panic from
one of the `.unwrap()` calls (receiver mailbox parse, message build,
missing ZEPTO_AK/ZEPTO_SK, relay construction).  A render failure is
logged at error level and the function returns with no delivery attempt;
a delivery failure is logged at error level, with no retry. -/
def EmailSender.send (self : EmailSender) (env : SendEnv) : Option SendOutcome :=
  match self.render_result env with
  | .error e => some { error_logs := ["邮件模板渲染失败: " ++ e], warn_logs := [], smtp_attempts := 0 }
  | .ok _ =>
    if env.parse_mailbox self.receiver then
      let cc_warns := (self.cc_email.filter (fun a => !env.parse_mailbox a)).map
        (fun a => "无效的 CC 邮箱 " ++ a)
      let attach_warns :=
        if self.template_name.endsWith ".mjml" then
          ((cid_images_for_template self.template_name).filter
            (fun p => !env.attach_ok p.1)).map (fun p => "内嵌图片加载失败 " ++ p.1)
        else []
      if env.build_ok then
        match env.zepto_ak, env.zepto_sk with
        | some _, some _ =>
          if env.relay_ok then
            match env.deliver with
            | .ok _ => some { error_logs := [], warn_logs := cc_warns ++ attach_warns, smtp_attempts := 1 }
            | .error e => some { error_logs := ["邮件发送失败: " ++ e], warn_logs := cc_warns ++ attach_warns, smtp_attempts := 1 }
          else none
        | _, _ => none
      else none
    else none

/-- `Conferences` from src/api/src/model/huawei_meeting/mod.rs. -/
structure Conferences where
  conference_id : String
  subject : String
  start_time : String
  end_time : String
  conference_state : String
  language : String
  record_type : Int
  is_auto_record : Int
  conf_type : String
  chair_join_uri : String
  guest_join_uri : String
  scheduser_name : String
  deriving DecidableEq, Repr

/-- sea_orm's `ActiveValue`, restricted to the two constructors the
conversion uses: `Set` and `NotSet`. -/
inductive ActiveValue (α : Type) where
  | set (v : α)
  | notSet
  deriving DecidableEq, Repr

/-- The conference `ActiveModel` as populated by the `From<Conferences>`
conversion in src/api/src/model/huawei_meeting/mod.rs. -/
structure ConferenceActiveModel where
  id : ActiveValue Int
  platform_type : ActiveValue String
  subject : ActiveValue String
  start_time : ActiveValue String
  end_time : ActiveValue String
  conference_state : ActiveValue String
  conference_id : ActiveValue String
  language : ActiveValue String
  scheduser_name : ActiveValue String
  record_type : ActiveValue Int
  is_auto_record : ActiveValue Int
  conf_type : ActiveValue String
  chair_join_uri : ActiveValue String
  guest_join_uri : ActiveValue String
  create_at : ActiveValue Int
  update_at : ActiveValue Int
  deriving DecidableEq, Repr

/-- `From<Conferences> for conference::ActiveModel`
(src/api/src/model/huawei_meeting/mod.rs).  The Rust calls
`chrono::Utc::now().naive_utc()` once for `create_at` and once for
`update_at`; those two clock readings are the parameters. -/
def conference_active_model_from (value : Conferences)
    (now_create now_update : Int) : ConferenceActiveModel :=
  { id := .notSet
    platform_type := .set "huaweimeeting"
    subject := .set value.subject
    start_time := .set value.start_time
    end_time := .set value.end_time
    conference_state := .set value.conference_state
    conference_id := .set value.conference_id
    language := .set value.language
    scheduser_name := .set value.scheduser_name
    record_type := .set value.record_type
    is_auto_record := .set value.is_auto_record
    conf_type := .set value.conf_type
    chair_join_uri := .set value.chair_join_uri
    guest_join_uri := .set value.guest_join_uri
    create_at := .set now_create
    update_at := .set now_update }

deriving instance DecidableEq for Except

/-- Observable outcome of one `conference_create` request: the handler's
return value (`Result<(), (StatusCode, &str)>`), the conference records
saved through `conf_stg.save_conf`, the number of POSTs issued to the
third-party conference-creation endpoint, and the number of parse errors
logged at error level. -/
structure ConferenceCreateOutcome where
  result : Except (Nat × String) Unit
  saved : List ConferenceActiveModel
  booking_requests : Nat
  parse_error_logs : Nat
  deriving DecidableEq, Repr

/-- `conference_create` from src/api/src/confernece_router.rs, after the
auth call and the POST to the third-party API succeeded (their `.unwrap()`s
panic otherwise).  `parse_body` is the `serde_json::from_str::<Vec<Conferences>>`
result on the response body; `none` is the panic from `conf.first().unwrap()`
on an empty parsed list.  `save_conf(..).unwrap()` is taken as succeeding. -/
def conference_create (parse_body : Except String (List Conferences))
    (now_create now_update : Int) : Option ConferenceCreateOutcome :=
  match parse_body with
  | .ok conf =>
    match conf.head? with
    | some c => some { result := .ok (), saved := [conference_active_model_from c now_create now_update], booking_requests := 1, parse_error_logs := 0 }
    | none => none
  | .error _ => some { result := .ok (), saved := [], booking_requests := 1, parse_error_logs := 1 }

/-- Modelled from the spec: the task-state transition code is not among the
provided sources (only the entity record is); the spec gives the lifecycle
"assigned → failed/completed".  `can_transition s t` holds exactly on the
lifecycle's edges. -/
def can_transition : TaskStatus → TaskStatus → Bool
  | .assigned, .failed => true
  | .assigned, .completed => true
  | _, _ => false

/-- Time for `next_tuesday_8pm`: local wall-clock seconds counted from a
Monday 00:00.  `86400` seconds per day, day index `t / 86400`, weekday
`num_days_from_monday = (t / 86400) % 7` (Monday 0, Tuesday 1), and
time-of-day `t % 86400`; 20:00 is second `72000` of the day. -/
def weekday_num_from_monday (t : Nat) : Nat := (t / 86400) % 7

/-- Seconds since local midnight, the comparand of `now.time()`. -/
def time_of_day (t : Nat) : Nat := t % 86400

/-- The `days_to_add` match of `next_tuesday_8pm`
(src/api/src/confernece_router.rs): 0 on a Tuesday strictly before 20:00,
7 on a Tuesday at or after 20:00, otherwise
`(Tue.num_days_from_monday() + 7 - current.num_days_from_monday()) % 7`. -/
def days_to_add (now : Nat) : Nat :=
  if weekday_num_from_monday now = 1 ∧ time_of_day now < 72000 then 0
  else if weekday_num_from_monday now = 1 then 7
  else (1 + 7 - weekday_num_from_monday now) % 7

/-- `next_tuesday_8pm` from src/api/src/confernece_router.rs: the date of
`now + days_to_add` days, at 20:00.  (The Rust then formats this value as
"%Y-%m-%d %H:%M" and relabels it UTC; seconds are 0, so the formatted
string determines this timestamp.) -/
def next_tuesday_8pm (now : Nat) : Nat :=
  (now / 86400 + days_to_add now) * 86400 + 72000

/-- A timestamp that is a Tuesday at exactly 20:00:00 local time: second
`86400 + 72000 = 158400` of its week. -/
def is_tuesday_8pm (t : Nat) : Prop := t % 604800 = 158400

instance (t : Nat) : Decidable (is_tuesday_8pm t) := by
  unfold is_tuesday_8pm; infer_instance

/-- Concrete student record used to instantiate theorems. -/
def sample_student : StudentModel :=
  { github_login := "alice", student_name := "Alice", email := "alice@example.com" }

/-- Concrete active mentor record used to instantiate theorems. -/
def sample_mentor : MentorRes :=
  { github_login := "bob", status := .active, email := "bob@example.com" }

/-- Concrete task record used to instantiate theorems. -/
def sample_task : TaskModel :=
  { id := 1, github_repo_id := 10, github_issue_id := 100, score := 5
    task_status := .assigned, student_github_login := some "alice"
    mentor_github_login := "bob", create_at := 0, update_at := 0
    github_issue_title := "Fix bug", github_issue_link := "https://github.com/r2cn-dev/demo/issues/100"
    owner := "r2cn-dev", repo := "demo" }

/-- Student storage that always finds `sample_student`. -/
def sample_get_student : String → Option StudentModel := fun _ => some sample_student

/-- Mentor storage that always finds `sample_mentor`. -/
def sample_get_mentor : String → Option MentorRes := fun _ => some sample_mentor

/-- Student storage that never finds a record. -/
def none_get_student : String → Option StudentModel := fun _ => none

/-- Concrete third-party conference response used to instantiate theorems. -/
def sample_conference : Conferences :=
  { conference_id := "986556844", subject := "创建会议接口测试"
    start_time := "2025-01-07 20:00", end_time := "2025-01-07 21:00"
    conference_state := "Schedule", language := "zh-CN", record_type := 2
    is_auto_record := 1, conf_type := "FUTURE"
    chair_join_uri := "https://meeting.example/chair"
    guest_join_uri := "https://meeting.example/guest", scheduser_name := "r2cn" }

/-- A `NotifyResult` never invokes `send` more than once. -/
lemma send_count_le_one (r : NotifyResult) : r.send_count ≤ 1 := by
  cases r <;> simp [NotifyResult.send_count]

/-- Membership in the flattened CC list built from `mentor_cc_email`. -/
lemma mem_cc_flatten (gm : String → Option MentorRes) (l e : String) :
    e ∈ ([mentor_cc_email gm l].filterMap id) ↔
      ∃ m, gm l = some m ∧ m.status = MentorStatus.active ∧ e = m.email := by
  unfold mentor_cc_email
  cases h : gm l with
  | none => simp
  | some m =>
    by_cases hs : m.status = MentorStatus.active
    · simp [hs]
    · simp [hs]

/-- The flattened CC list is empty when the mentor is absent or inactive. -/
lemma cc_flatten_empty (gm : String → Option MentorRes) (l : String)
    (h : ∀ m, gm l = some m → m.status ≠ MentorStatus.active) :
    ([mentor_cc_email gm l].filterMap id) = [] := by
  unfold mentor_cc_email
  cases hg : gm l with
  | none => simp
  | some m => simp [h m hg]

/-- C1: when the task has a `student_github_login` and the student record is
found, each notification function (`failed_email`, `assigned_email`,
`complete_email`) invokes `EmailSender::send` exactly once, and no
notification function ever invokes it more than once. -/
theorem notification_sends_exactly_once
    (get_student : String → Option StudentModel) (get_mentor : String → Option MentorRes)
    (task : TaskModel) (login : String) (st : StudentModel) (balance : Int)
    (h1 : task.student_github_login = some login)
    (h2 : get_student login = some st) :
    ((failed_email get_student get_mentor task).send_count = 1 ∧
     (assigned_email get_student get_mentor task).send_count = 1 ∧
     (complete_email get_student get_mentor task balance).send_count = 1) ∧
    (∀ gs gm t b, (failed_email gs gm t).send_count ≤ 1 ∧
      (assigned_email gs gm t).send_count ≤ 1 ∧
      (complete_email gs gm t b).send_count ≤ 1) := by
  constructor
  · refine ⟨?_, ?_, ?_⟩ <;>
      simp [failed_email, assigned_email, complete_email, h1, h2, NotifyResult.send_count]
  · intro gs gm t b
    exact ⟨send_count_le_one _, send_count_le_one _, send_count_le_one _⟩

/-- Witness for C1 at concrete storage and task. -/
theorem notification_sends_exactly_once_witness :
    sample_task.student_github_login = some "alice" ∧
    sample_get_student "alice" = some sample_student ∧
    ((failed_email sample_get_student sample_get_mentor sample_task).send_count = 1 ∧
     (assigned_email sample_get_student sample_get_mentor sample_task).send_count = 1 ∧
     (complete_email sample_get_student sample_get_mentor sample_task 25).send_count = 1) :=
  ⟨rfl, rfl,
    (notification_sends_exactly_once sample_get_student sample_get_mentor sample_task
      "alice" sample_student 25 rfl rfl).1⟩

/-- C2: under the same conditions, `failed_email` sends the
`task_failed.mjml` template with the failure subject, `assigned_email`
sends `task_assigned.mjml` with the assignment subject, and
`complete_email` sends `task_completed_points.mjml` with the completion
subject, each addressed to the student's email. -/
theorem notification_template_selection
    (get_student : String → Option StudentModel) (get_mentor : String → Option MentorRes)
    (task : TaskModel) (login : String) (st : StudentModel) (balance : Int)
    (h1 : task.student_github_login = some login)
    (h2 : get_student login = some st) :
    (∃ se, failed_email get_student get_mentor task = .sent se ∧
      se.template_name = "task_failed.mjml" ∧
      se.subject = "R2CN任务失败通知/R2CN Task Failure" ∧ se.receiver = st.email) ∧
    (∃ se, assigned_email get_student get_mentor task = .sent se ∧
      se.template_name = "task_assigned.mjml" ∧
      se.subject = "R2CN任务认领通知/R2CN Task Assigned" ∧ se.receiver = st.email) ∧
    (∃ se, complete_email get_student get_mentor task balance = .sent se ∧
      se.template_name = "task_completed_points.mjml" ∧
      se.subject = "R2CN任务完成通知/R2CN Task Successful" ∧ se.receiver = st.email) := by
  refine ⟨?_, ?_, ?_⟩
  · simp only [failed_email, h1, h2]
    exact ⟨_, rfl, rfl, rfl, rfl⟩
  · simp only [assigned_email, h1, h2]
    exact ⟨_, rfl, rfl, rfl, rfl⟩
  · simp only [complete_email, h1, h2]
    exact ⟨_, rfl, rfl, rfl, rfl⟩

/-- Witness for C2 at concrete storage and task. -/
theorem notification_template_selection_witness :
    sample_task.student_github_login = some "alice" ∧
    sample_get_student "alice" = some sample_student ∧
    (∃ se, failed_email sample_get_student sample_get_mentor sample_task = .sent se ∧
      se.template_name = "task_failed.mjml" ∧
      se.subject = "R2CN任务失败通知/R2CN Task Failure" ∧ se.receiver = sample_student.email) :=
  ⟨rfl, rfl,
    (notification_template_selection sample_get_student sample_get_mentor sample_task
      "alice" sample_student 25 rfl rfl).1⟩

/-- C9: whichever notification function built the sender, its CC list
contains exactly the mentors found under the task's `mentor_github_login`
with Active status; a missing or inactive mentor yields an empty CC list. -/
theorem notification_cc_mentor_iff_active
    (get_student : String → Option StudentModel) (get_mentor : String → Option MentorRes)
    (task : TaskModel) (login : String) (st : StudentModel) (balance : Int)
    (h1 : task.student_github_login = some login)
    (h2 : get_student login = some st) :
    ∀ se, ((failed_email get_student get_mentor task).sent_sender = some se ∨
           (assigned_email get_student get_mentor task).sent_sender = some se ∨
           (complete_email get_student get_mentor task balance).sent_sender = some se) →
      (∀ e, e ∈ se.cc_email ↔
        ∃ m, get_mentor task.mentor_github_login = some m ∧
          m.status = MentorStatus.active ∧ e = m.email) ∧
      ((∀ m, get_mentor task.mentor_github_login = some m →
          m.status ≠ MentorStatus.active) → se.cc_email = []) := by
  intro se hse
  rcases hse with h | h | h <;>
  · simp only [failed_email, assigned_email, complete_email, h1, h2,
      NotifyResult.sent_sender, Option.some.injEq] at h
    subst h
    exact ⟨fun e => mem_cc_flatten get_mentor _ e, cc_flatten_empty get_mentor _⟩

/-- Witness for C9: with an active mentor on record, the mentor's email is
in the CC list of the failure notification. -/
theorem notification_cc_mentor_iff_active_witness :
    ∃ se, (failed_email sample_get_student sample_get_mentor sample_task).sent_sender = some se ∧
      "bob@example.com" ∈ se.cc_email := by
  refine ⟨_, rfl, ?_⟩
  exact ((notification_cc_mentor_iff_active sample_get_student sample_get_mentor sample_task
      "alice" sample_student 25 rfl rfl _ (Or.inl rfl)).1 "bob@example.com").mpr
    ⟨sample_mentor, rfl, rfl, rfl⟩

/-- C10: on a task whose student login is set but whose student record is
absent, `assigned_email` panics on the second `unwrap`, while
`failed_email` and `complete_email` return without sending: the three
functions do not treat the missing-student case uniformly. -/
theorem missing_student_handling_divergence
    (get_student : String → Option StudentModel) (get_mentor : String → Option MentorRes)
    (task : TaskModel) (login : String) (balance : Int)
    (h1 : task.student_github_login = some login)
    (h2 : get_student login = none) :
    assigned_email get_student get_mentor task = .panicked ∧
    failed_email get_student get_mentor task = .noEmail ∧
    complete_email get_student get_mentor task balance = .noEmail := by
  refine ⟨?_, ?_, ?_⟩ <;>
    simp [assigned_email, failed_email, complete_email, h1, h2]

/-- Witness for C10 at concrete storage and task. -/
theorem missing_student_handling_divergence_witness :
    sample_task.student_github_login = some "alice" ∧
    none_get_student "alice" = none ∧
    (assigned_email none_get_student sample_get_mentor sample_task = .panicked ∧
     failed_email none_get_student sample_get_mentor sample_task = .noEmail ∧
     complete_email none_get_student sample_get_mentor sample_task 25 = .noEmail) :=
  ⟨rfl, rfl,
    missing_student_handling_divergence none_get_student sample_get_mentor sample_task
      "alice" 25 rfl rfl⟩

/-- C5: if template rendering fails, `send` logs the render error and
returns with no SMTP delivery attempt; in every non-panicking run delivery
is attempted at most once; and when rendering succeeded but delivery
failed, the failure is only logged — the attempt count stays 1, never a
retry. -/
theorem send_render_failure_and_single_delivery (self : EmailSender) (env : SendEnv) :
    (∀ e, self.render_result env = .error e →
      self.send env = some { error_logs := ["邮件模板渲染失败: " ++ e], warn_logs := [], smtp_attempts := 0 }) ∧
    (∀ out, self.send env = some out → out.smtp_attempts ≤ 1) ∧
    (∀ s e out, self.render_result env = .ok s → env.deliver = .error e →
      self.send env = some out →
      out.smtp_attempts = 1 ∧ ("邮件发送失败: " ++ e) ∈ out.error_logs) := by
  refine ⟨?_, ?_, ?_⟩
  · intro e he
    unfold EmailSender.send
    rw [he]
  · intro out hout
    unfold EmailSender.send at hout
    repeat' split at hout
    all_goals first
      | (cases hout; simp)
      | simp_all
  · intro s e out hr hd hout
    unfold EmailSender.send at hout
    rw [hr, hd] at hout
    repeat' split at hout
    all_goals first
      | (cases hout; simp_all)
      | simp_all

/-- Witness for C5: a sender whose MJML rendering fails makes no delivery
attempt and logs the render error. -/
theorem send_render_failure_and_single_delivery_witness :
    (EmailSender.new "task_failed.mjml" "R2CN任务失败通知/R2CN Task Failure" [] "alice@example.com" []).send
      { render_mjml_fn := fun _ _ => Except.error "Tera 渲染失败: missing variable"
        render_tera_fn := fun _ _ => Except.error "Tera 渲染失败: missing variable"
        parse_mailbox := fun _ => true, attach_ok := fun _ => true, build_ok := true
        zepto_ak := some "ak", zepto_sk := some "sk", relay_ok := true
        deliver := Except.ok () } =
    some { error_logs := ["邮件模板渲染失败: Tera 渲染失败: missing variable"], warn_logs := [], smtp_attempts := 0 } :=
  (send_render_failure_and_single_delivery _ _).1 "Tera 渲染失败: missing variable" (by
    simp only [EmailSender.render_result, EmailSender.new]
    cases hb : "task_failed.mjml".endsWith ".mjml" <;> simp [hb])

/-- C3: on a third-party response body that fails to parse as a conference
list, `conference_create` logs the parse error, saves nothing, and still
returns `Ok(())`; in fact every non-panicking run of the handler returns
`Ok(())`. -/
theorem conference_create_parse_error_returns_ok (now_create now_update : Int) :
    (∀ e, conference_create (.error e) now_create now_update =
      some { result := .ok (), saved := [], booking_requests := 1, parse_error_logs := 1 }) ∧
    (∀ parse_body out, conference_create parse_body now_create now_update = some out →
      out.result = .ok () ∧ ∀ e, parse_body = .error e → out.saved = []) := by
  constructor
  · intro e; rfl
  · intro pb out hout
    cases pb with
    | error e =>
      simp only [conference_create] at hout
      injection hout with h
      subst h
      exact ⟨rfl, fun _ _ => rfl⟩
    | ok conf =>
      cases conf with
      | nil => simp [conference_create] at hout
      | cons c rest =>
        simp only [conference_create, List.head?] at hout
        injection hout with h
        subst h
        exact ⟨rfl, fun e he => Except.noConfusion he⟩

/-- Witness for C3 at a concrete malformed body. -/
theorem conference_create_parse_error_returns_ok_witness :
    conference_create (Except.error "invalid type: map, expected a sequence") 100 101 =
      some { result := .ok (), saved := [], booking_requests := 1, parse_error_logs := 1 } :=
  (conference_create_parse_error_returns_ok 100 101).1 "invalid type: map, expected a sequence"

/-- C7: when the response parses as a non-empty conference list, exactly
the first conference is converted (with platform_type "huaweimeeting") and
saved, one booking POST having been delegated to the third-party API, and
the handler returns `Ok(())`. -/
theorem conference_create_saves_first_conference
    (parse_body : Except String (List Conferences)) (c : Conferences)
    (rest : List Conferences) (now_create now_update : Int)
    (h : parse_body = .ok (c :: rest)) :
    conference_create parse_body now_create now_update =
      some { result := .ok ()
             saved := [conference_active_model_from c now_create now_update]
             booking_requests := 1
             parse_error_logs := 0 } ∧
    (conference_active_model_from c now_create now_update).platform_type =
      ActiveValue.set "huaweimeeting" := by
  subst h
  exact ⟨rfl, rfl⟩

/-- Witness for C7 at a concrete one-element response. -/
theorem conference_create_saves_first_conference_witness :
    conference_create (Except.ok [sample_conference]) 100 101 =
      some { result := .ok ()
             saved := [conference_active_model_from sample_conference 100 101]
             booking_requests := 1
             parse_error_logs := 0 } ∧
    (conference_active_model_from sample_conference 100 101).platform_type =
      ActiveValue.set "huaweimeeting" :=
  conference_create_saves_first_conference _ sample_conference [] 100 101 rfl

/-- C4 counterexample: the conversion does not leave `create_at` and
`update_at` unset — at a concrete input they come out `Set` to the clock
readings taken inside the conversion. -/
theorem conversion_timestamps_not_unset_cx :
    (conference_active_model_from sample_conference 100 101).create_at = ActiveValue.set 100 ∧
    (conference_active_model_from sample_conference 100 101).update_at = ActiveValue.set 101 ∧
    (conference_active_model_from sample_conference 100 101).create_at ≠ ActiveValue.notSet ∧
    (conference_active_model_from sample_conference 100 101).update_at ≠ ActiveValue.notSet :=
  ⟨rfl, rfl, fun h => ActiveValue.noConfusion h, fun h => ActiveValue.noConfusion h⟩

/-- C4 amended: converting a `Conferences` response sets `create_at` and
`update_at` to the conversion-time clock readings (its own
`chrono::Utc::now()` calls, not the ORM layer); only `id` is left unset. -/
theorem conversion_sets_timestamps_to_now (value : Conferences) (now_create now_update : Int) :
    (conference_active_model_from value now_create now_update).create_at = ActiveValue.set now_create ∧
    (conference_active_model_from value now_create now_update).update_at = ActiveValue.set now_update ∧
    (conference_active_model_from value now_create now_update).id = ActiveValue.notSet :=
  ⟨rfl, rfl, rfl⟩

/-- C6: every edge of the task lifecycle transition relation starts at
`assigned` and ends at `failed` or `completed`; no other transition is
reachable. -/
theorem task_transition_only_from_assigned (s t : TaskStatus)
    (h : can_transition s t = true) :
    s = TaskStatus.assigned ∧ (t = TaskStatus.failed ∨ t = TaskStatus.completed) := by
  cases s <;> cases t <;> simp_all [can_transition]

/-- Witness for C6 at the assigned → failed edge. -/
theorem task_transition_only_from_assigned_witness :
    can_transition TaskStatus.assigned TaskStatus.failed = true ∧
    (TaskStatus.assigned = TaskStatus.assigned ∧
      (TaskStatus.failed = TaskStatus.failed ∨ TaskStatus.failed = TaskStatus.completed)) :=
  ⟨rfl, task_transition_only_from_assigned TaskStatus.assigned TaskStatus.failed rfl⟩

/-- Bounds for `next_tuesday_8pm`: the result is second 158400 of its week
(a Tuesday at 20:00), strictly later than `now`, and at most a week ahead. -/
lemma next_tuesday_8pm_bounds (now : Nat) :
    next_tuesday_8pm now % 604800 = 158400 ∧
    now < next_tuesday_8pm now ∧
    next_tuesday_8pm now ≤ now + 604800 := by
  unfold next_tuesday_8pm days_to_add weekday_num_from_monday time_of_day
  split_ifs with h1 h2 <;> omega

/-- A value of the Tuesday-20:00 residue class that is strictly later than
`now` but at most a week ahead is the least such value above `now`. -/
lemma tuesday_min_lemma (now r : Nat) (hA : r % 604800 = 158400) (hB : now < r)
    (hC : r ≤ now + 604800) :
    ∀ t, t % 604800 = 158400 → now < t → r ≤ t := by
  intro t ht hnt
  omega

/-- C8 counterexample: at `now = 158400`, a Tuesday at exactly 20:00:00,
the instant 158400 itself is a Tuesday-at-20:00 timestamp not earlier than
now, yet `next_tuesday_8pm` returns 763200, a week later — the returned
value is not the earliest Tuesday-at-20:00 timestamp not earlier than now. -/
theorem next_tuesday_8pm_not_earliest_cx :
    is_tuesday_8pm 158400 ∧ 158400 ≤ 158400 ∧
    next_tuesday_8pm 158400 = 763200 ∧ 158400 < next_tuesday_8pm 158400 := by
  refine ⟨by decide, by decide, by decide, by decide⟩

/-- C8 amended: `next_tuesday_8pm` returns the earliest Tuesday-at-20:00
timestamp strictly later than now (a whole minute, hence exactly carried
by the "%Y-%m-%d %H:%M" formatting): on a Tuesday before 20:00 it is
today at 20:00; on a Tuesday at or after 20:00 it is the date seven days
later; on any other day it is the next Tuesday, one to six days ahead. -/
theorem next_tuesday_8pm_amended (now : Nat) :
    is_tuesday_8pm (next_tuesday_8pm now) ∧
    now < next_tuesday_8pm now ∧
    (∀ t, is_tuesday_8pm t → now < t → next_tuesday_8pm now ≤ t) ∧
    next_tuesday_8pm now % 60 = 0 ∧
    (weekday_num_from_monday now = 1 → time_of_day now < 72000 →
      next_tuesday_8pm now = now - time_of_day now + 72000) ∧
    (weekday_num_from_monday now = 1 → 72000 ≤ time_of_day now →
      next_tuesday_8pm now = now - time_of_day now + 72000 + 7 * 86400) ∧
    (weekday_num_from_monday now ≠ 1 →
      1 ≤ days_to_add now ∧ days_to_add now ≤ 6 ∧
      next_tuesday_8pm now = now - time_of_day now + days_to_add now * 86400 + 72000) := by
  obtain ⟨hA, hB, hC⟩ := next_tuesday_8pm_bounds now
  refine ⟨hA, hB, tuesday_min_lemma now _ hA hB hC, by omega, ?_, ?_, ?_⟩
  · intro hw ht
    simp only [next_tuesday_8pm, days_to_add, weekday_num_from_monday, time_of_day] at hw ht ⊢
    split_ifs <;> omega
  · intro hw ht
    simp only [next_tuesday_8pm, days_to_add, weekday_num_from_monday, time_of_day] at hw ht ⊢
    split_ifs <;> omega
  · intro hw
    simp only [next_tuesday_8pm, days_to_add, weekday_num_from_monday, time_of_day] at hw ⊢
    split_ifs <;> omega

/-- Witness for C8's amended statement: from a Monday evening the result
is a Tuesday-20:00 instant later than now and no later than the following
week's Tuesday 20:00. -/
theorem next_tuesday_8pm_amended_witness :
    next_tuesday_8pm 86000 ≤ 763200 ∧ 86000 < next_tuesday_8pm 86000 :=
  ⟨(next_tuesday_8pm_amended 86000).2.2.1 763200 (by decide) (by decide),
   (next_tuesday_8pm_amended 86000).2.1⟩

end R2cnMentorLink
